import Mathlib

/-!
Shallow embedding of `src/gevent/lock.py` (gevent's locking primitives):
the recursion-guarded exclusive gate `_OwnedLock`, the gate-bracketed
`_AtomicSemaphore`, the no-op `DummySemaphore`, and the reentrant lock
`RLock`.

Execution-context identifiers (`_thread.get_ident()` for the gate,
`gevent.hub.getcurrent()` for `RLock`) are opaque values used only for
equality; both are modelled as `Nat` parameters named `me`.
-/

namespace GeventLock

/-- State of `_OwnedLock` (src/gevent/lock.py).
`owner` is `self._owner`; `blockHeld` records whether the raw OS mutex
`self._block` is currently held; `locking` is the `self._locking` dict
mapping a thread ident to its re-entry count, with `0` encoding absence
(the code never stores `0`: `__end` deletes the key instead); `count` is
`self._count`, the logical hold depth. -/
structure OwnedLock where
  owner : Option Nat
  blockHeld : Bool
  locking : Nat → Nat
  count : Int

/-- `_OwnedLock.__init__`: no owner, OS mutex free, empty dict, depth 0. -/
def OwnedLock.init : OwnedLock :=
  { owner := none, blockHeld := false, locking := fun _ => 0, count := 0 }

/-- `_OwnedLock.__begin`:
```
me = _get_ident()
try:            count = self._locking[me]
except KeyError: count = self._locking[me] = 1
else:            count = self._locking[me] = count + 1
return (me, count) if not count else (None, None)
```
Returns the pair `(me, count)` meaning "proceed" when `not count`
(i.e. `count = 0`), and the sentinel `(None, None)` otherwise, together
with the updated state. -/
def OwnedLock.begin (s : OwnedLock) (me : Nat) : (Option Nat × Option Nat) × OwnedLock :=
  let c : Nat := if s.locking me = 0 then 1 else s.locking me + 1
  (if c = 0 then (some me, some c) else (none, none),
   { s with locking := Function.update s.locking me c })

/-- `_OwnedLock.__end`:
```
if me is None: return
count = count - 1
if not count: del self._locking[me]
else:         self._locking[me] = count
```
(`begin` only ever hands `__end` a `some`/`some` or `none`/`none` pair.) -/
def OwnedLock.end_ (s : OwnedLock) (me : Option Nat) (count : Option Nat) : OwnedLock :=
  match me, count with
  | some m, some c =>
    let c2 := c - 1
    { s with locking := Function.update s.locking m c2 }
  | _, _ => s

/-- `_OwnedLock.__enter__` (aliased as `acquire`):
```
me, lock_count = self.__begin()
try:
    if me is None: return
    if self._owner == me: self._count += 1; return
    self._owner = me
    self._block.acquire()
    self._count = 1
finally:
    self.__end(me, lock_count)
```
`self._block.acquire()` is modelled as setting `blockHeld := true`
(the OS-mutex blocking on a foreign holder is outside this
single-context model and unreachable below anyway). -/
def OwnedLock.enter (s : OwnedLock) (me : Nat) : OwnedLock :=
  let r := s.begin me
  let s1 := r.2
  let s2 :=
    match r.1.1 with
    | none => s1
    | some mid =>
      if s1.owner = some mid then { s1 with count := s1.count + 1 }
      else { s1 with owner := some mid, blockHeld := true, count := 1 }
  s2.end_ r.1.1 r.1.2

/-- `_OwnedLock.release` (also `__exit__`):
```
me, lock_count = self.__begin()
try:
    if me is None: return
    self._count = count = self._count - 1
    if not count:
        self._block.release()
        self._owner = None
finally:
    self.__end(me, lock_count)
``` -/
def OwnedLock.release (s : OwnedLock) (me : Nat) : OwnedLock :=
  let r := s.begin me
  let s1 := r.2
  let s2 :=
    match r.1.1 with
    | none => s1
    | some _ =>
      let c := s1.count - 1
      if c = 0 then { s1 with count := c, blockHeld := false, owner := none }
      else { s1 with count := c }
  s2.end_ r.1.1 r.1.2

/-- Modelled from the spec: the base counting semaphore
(`gevent._semaphore.Semaphore`, not under src/) in the single-task,
no-suspension fragment. `acquire(blocking, timeout)` obtains a slot and
returns `true` when `counter > 0`; with `counter = 0` a non-blocking call
or a `timeout = 0` poll returns `false` at once; any other call would
suspend the task, which this fragment leaves undefined (`none`). -/
def baseAcquire (c : Nat) (blocking : Bool) (timeout : Option Int) : Option (Bool × Nat) :=
  if 0 < c then some (true, c - 1)
  else if blocking = false then some (false, c)
  else if timeout = some 0 then some (false, c)
  else none

/-- Modelled from the spec: base-semaphore `wait(timeout)` — availability
test, "acquire and immediately release"; returns the available count
(leaving `counter` unchanged) when `counter > 0`, returns at once on a
`timeout = 0` poll, and otherwise would suspend (`none`). -/
def baseWait (c : Nat) (timeout : Option Int) : Option (Nat × Nat) :=
  if 0 < c then some (c, c)
  else if timeout = some 0 then some (c, c)
  else none

/-- Modelled from the spec: base-semaphore `release()` increments the
counter (unbounded variant); the pair is (returned value, new counter). -/
def baseRelease (c : Nat) : Nat × Nat := (c + 1, c + 1)

/-- State of `_AtomicSemaphore` (src/gevent/lock.py): the gate
`self._lock_lock : _OwnedLock` plus the base semaphore's counter. -/
structure AtomicSem where
  lock_lock : OwnedLock
  counter : Nat

/-- `_AtomicSemaphore.acquire`:
```
with self._lock_lock:
    return super(_AtomicSemaphore, self).acquire(blocking, timeout)
```
The `with` statement runs `_lock_lock.__enter__` on entry and
`_lock_lock.release` on every exit path. The suspending path of the base
`acquire` (which goes through `_wait`, releasing and re-acquiring the
gate around the suspension) is the `none` case of `baseAcquire`. -/
def AtomicSem.acquire (s : AtomicSem) (me : Nat) (blocking : Bool) (timeout : Option Int) :
    Option (Bool × AtomicSem) :=
  let g1 := s.lock_lock.enter me
  match baseAcquire s.counter blocking timeout with
  | none => none
  | some (r, c2) => some (r, { lock_lock := g1.release me, counter := c2 })

/-- `_AtomicSemaphore.wait`:
```
with self._lock_lock:
    return super(_AtomicSemaphore, self).wait(timeout)
``` -/
def AtomicSem.wait (s : AtomicSem) (me : Nat) (timeout : Option Int) :
    Option (Nat × AtomicSem) :=
  let g1 := s.lock_lock.enter me
  match baseWait s.counter timeout with
  | none => none
  | some (r, c2) => some (r, { lock_lock := g1.release me, counter := c2 })

/-- `_AtomicSemaphore.release`:
```
with self._lock_lock:
    return super(_AtomicSemaphore, self).release()
```
The third component is a ghost observation: whether the gate's OS mutex
`_block` was held at the moment the base `release` mutated the counter
(i.e. after `_lock_lock.__enter__` ran). -/
def AtomicSem.release (s : AtomicSem) (me : Nat) : Nat × AtomicSem × Bool :=
  let g1 := s.lock_lock.enter me
  let r := baseRelease s.counter
  (r.1, { lock_lock := g1.release me, counter := r.2 }, g1.blockHeld)

/-- `DummySemaphore` carries no state at all (its `__init__` ignores its
argument and stores nothing). -/
structure DummySemaphore where

/-- `DummySemaphore.locked`: always `False`. -/
def DummySemaphore.locked (_ : DummySemaphore) : Bool := false

/-- `DummySemaphore.ready`: always `True`. -/
def DummySemaphore.ready (_ : DummySemaphore) : Bool := true

/-- `DummySemaphore.wait(timeout)`: returns `1` immediately, ignoring
`timeout`; the state (second component) is untouched. -/
def DummySemaphore.wait (s : DummySemaphore) (_ : Option Int) : Int × DummySemaphore :=
  (1, s)

/-- `DummySemaphore.acquire(blocking, timeout)`: always returns `True`
immediately, ignoring both arguments. -/
def DummySemaphore.acquire (s : DummySemaphore) (_ : Bool) (_ : Option Int) :
    Bool × DummySemaphore :=
  (true, s)

/-- `DummySemaphore.release()`: does nothing. -/
def DummySemaphore.release (s : DummySemaphore) : DummySemaphore := s

/-- Ghost trace of the operations `RLock` performs on its underlying
`Semaphore(1)` (`self._block`). -/
inductive SemOp where
  | acq (blocking : Bool) (timeout : Option Int)
  | rel
deriving DecidableEq, Repr

/-- `RuntimeError("cannot release un-acquired lock")` raised by
`RLock.release`. -/
inductive LockError where
  | ownershipViolation
deriving DecidableEq, Repr

/-- State of `RLock` (src/gevent/lock.py): `block` is the counter of the
underlying `Semaphore(1)` (`self._block`), `owner` is `self._owner`
(greenlet identity), `count` is `self._count`. -/
structure RLock where
  block : Nat
  owner : Option Nat
  count : Int
deriving DecidableEq, Repr

/-- `RLock.__init__`: `self._block = Semaphore(1); self._owner = None;
self._count = 0`. -/
def RLock.init : RLock := { block := 1, owner := none, count := 0 }

/-- `RLock.acquire`:
```
me = getcurrent()
if self._owner is me:
    self._count = self._count + 1
    return 1
rc = self._block.acquire(blocking, timeout)
if rc:
    self._owner = me
    self._count = 1
return rc
```
Result: (boolean result, new state, ghost trace of semaphore operations);
`none` is the suspending case of the underlying blocking acquire. -/
def RLock.acquire (s : RLock) (me : Nat) (blocking : Bool) (timeout : Option Int) :
    Option (Bool × RLock × List SemOp) :=
  if s.owner = some me then
    some (true, { s with count := s.count + 1 }, [])
  else
    match baseAcquire s.block blocking timeout with
    | none => none
    | some (rc, b2) =>
      if rc then some (true, { block := b2, owner := some me, count := 1 },
                       [SemOp.acq blocking timeout])
      else some (false, { s with block := b2 }, [SemOp.acq blocking timeout])

/-- `RLock.release`:
```
if self._owner is not getcurrent():
    raise RuntimeError("cannot release un-acquired lock")
self._count = count = self._count - 1
if not count:
    self._owner = None
    self._block.release()
```
The raise happens before any mutation, so the error case returns the
input state unchanged with an empty trace. -/
def RLock.release (s : RLock) (me : Nat) : Option LockError × RLock × List SemOp :=
  if s.owner = some me then
    let c := s.count - 1
    if c = 0 then (none, { block := s.block + 1, owner := none, count := c }, [SemOp.rel])
    else (none, { s with count := c }, [])
  else (some LockError.ownershipViolation, s, [])

/-- `RLock._release_save`:
```
count = self._count;  self._count = 0
owner = self._owner;  self._owner = None
self._block.release()
return (count, owner)
``` -/
def RLock._release_save (s : RLock) : (Int × Option Nat) × RLock :=
  ((s.count, s.owner), { block := s.block + 1, owner := none, count := 0 })

/-- `RLock._acquire_restore`:
```
count, owner = count_owner
self._block.acquire()
self._count = count
self._owner = owner
```
The blocking no-timeout `_block.acquire()` suspends (`none`) when the
semaphore has no slot. -/
def RLock._acquire_restore (s : RLock) (co : Int × Option Nat) : Option RLock :=
  match baseAcquire s.block true none with
  | none => none
  | some (_, b2) => some { block := b2, owner := co.2, count := co.1 }

/-- `RLock._is_owned`: `self._owner is getcurrent()`. -/
def RLock._is_owned (s : RLock) (me : Nat) : Bool := s.owner = some me

/-- `n` successive blocking `acquire()` calls by context `me`, threading
the state; `none` if any of them suspends. -/
def RLock.acquireN (me : Nat) : Nat → RLock → Option RLock
  | 0, s => some s
  | n + 1, s =>
    match s.acquire me true none with
    | some (_, s2, _) => RLock.acquireN me n s2
    | none => none

/-- The `RLock` state invariant from the spec: `count > 0 ⇔ owner.is_some()`
(with `count = 0`, `owner = None` otherwise); "at most one task is
recorded as owner" is carried by `owner : Option Nat` itself. -/
def RLockInv (s : RLock) : Prop :=
  (0 < s.count ↔ s.owner.isSome) ∧ 0 ≤ s.count

instance (s : RLock) : Decidable (RLockInv s) :=
  inferInstanceAs (Decidable ((0 < s.count ↔ s.owner.isSome) ∧ 0 ≤ s.count))

/-- The count stored by `__begin` is `1` on a first call and `old + 1` on a
nested call, hence never `0`; so the `not count` test always fails and
`__begin` always answers with the sentinel `(None, None)`. -/
lemma OwnedLock.begin_fst (s : OwnedLock) (me : Nat) : (s.begin me).1 = (none, none) := by
  by_cases h : s.locking me = 0 <;> simp [OwnedLock.begin, h]

/-- Because `__begin` always returns the sentinel, `__enter__` skips its body:
only the `_locking` dict changes. -/
lemma OwnedLock.enter_preserves (s : OwnedLock) (me : Nat) :
    (s.enter me).owner = s.owner ∧ (s.enter me).blockHeld = s.blockHeld ∧
    (s.enter me).count = s.count := by
  have h := s.begin_fst me
  simp only [OwnedLock.enter, h]
  by_cases hl : s.locking me = 0 <;>
    simp [OwnedLock.begin, OwnedLock.end_, hl]

/-- Because `__begin` always returns the sentinel, `release` skips its body:
only the `_locking` dict changes. -/
lemma OwnedLock.release_preserves (s : OwnedLock) (me : Nat) :
    (s.release me).owner = s.owner ∧ (s.release me).blockHeld = s.blockHeld ∧
    (s.release me).count = s.count := by
  have h := s.begin_fst me
  simp only [OwnedLock.release, h]
  by_cases hl : s.locking me = 0 <;>
    simp [OwnedLock.begin, OwnedLock.end_, hl]

/-- From a state already owned by `me`, every further `acquire` takes the
reentrant branch: `k` acquires add `k` to the count and touch nothing else. -/
lemma RLock.acquireN_owned (me : Nat) (k : Nat) (bl : Nat) (c : Int) :
    RLock.acquireN me k { block := bl, owner := some me, count := c } =
      some { block := bl, owner := some me, count := c + k } := by
  induction k generalizing c with
  | zero => simp [RLock.acquireN]
  | succ n ih =>
    have h1 : RLock.acquireN me (n + 1) { block := bl, owner := some me, count := c } =
        RLock.acquireN me n { block := bl, owner := some me, count := c + 1 } := by
      rw [RLock.acquireN]
      simp [RLock.acquire]
    rw [h1, ih]
    simp only [Option.some.injEq, RLock.mk.injEq, true_and]
    push_cast
    ring

/-- Claim C1 (code bug): the spec says the begin step of the gate indicates
"proceed" for a first, non-nested call and returns the sentinel only when a
re-entry count for the caller already exists. In the code the count stored
by `__begin` is `1` on a first call and `old + 1` on a nested one — never
`0` — so the `not count` guard always fails and `__begin` answers the
sentinel `(None, None)` on every call, including a first non-nested call on
a fresh gate, contradicting the claim and the function's own comment
("Return (me, count) if we should proceed"). Upstream gevent tests
`count == 1` here. -/
theorem claim_C1_begin_always_sentinel (s : GeventLock.OwnedLock) (me : Nat) :
    (s.begin me).1 = (none, none) :=
  s.begin_fst me

/-- Claim C2 (code bug): the spec says a non-nested `enter()` by a non-owner
acquires the OS mutex and sets `owner = current`, `depth = 1`, and that
`exit()` decrements the depth and releases the mutex at zero. Because
`__begin` always returns the sentinel (claim C1), both `__enter__` and
`release` skip their whole bodies: `_owner`, the OS mutex `_block`, and
`_count` are left untouched by every call, on every state. -/
theorem claim_C2_enter_release_noop (s : GeventLock.OwnedLock) (me : Nat) :
    ((s.enter me).owner = s.owner ∧ (s.enter me).blockHeld = s.blockHeld ∧
      (s.enter me).count = s.count) ∧
    ((s.release me).owner = s.owner ∧ (s.release me).blockHeld = s.blockHeld ∧
      (s.release me).count = s.count) :=
  ⟨s.enter_preserves me, s.release_preserves me⟩

/-- Claim C3 (code bug): the spec says the gate is always held while
counter/waiter state is mutated. The bracketing calls are placed correctly
in `_AtomicSemaphore` (`with self._lock_lock:` around each public
operation, and `_wait` releases/re-acquires the gate around the suspension),
but since `_lock_lock.__enter__` never acquires `_block` (claim C1), the
gate's OS mutex is exactly as it was — in particular unheld on a freshly
constructed semaphore — at the moment `release()` mutates the counter. -/
theorem claim_C3_gate_unheld_at_mutation (s : GeventLock.AtomicSem) (me c : Nat) :
    (s.release me).2.2 = s.lock_lock.blockHeld ∧
    ((GeventLock.AtomicSem.mk GeventLock.OwnedLock.init c).release me).2.2 = false := by
  refine ⟨(s.lock_lock.enter_preserves me).2.1, ?_⟩
  exact ((GeventLock.OwnedLock.init.enter_preserves me).2.1).trans rfl

/-- Claim C4 (confirmed): an `acquire` by the task that already owns the
`RLock` increments `count` by exactly one, returns success at once, and
performs no operation on the underlying semaphore (empty ghost trace); and
a single task acquiring a fresh lock `n ≥ 1` times succeeds every time and
ends with `count = n`. -/
theorem claim_C4_reentrant_acquire (s : GeventLock.RLock) (me : Nat) (blocking : Bool)
    (timeout : Option Int) (n : Nat) (h : s.owner = some me) (hn : 1 ≤ n) :
    s.acquire me blocking timeout = some (true, { s with count := s.count + 1 }, []) ∧
    GeventLock.RLock.acquireN me n GeventLock.RLock.init =
      some { block := 0, owner := some me, count := (n : Int) } := by
  refine ⟨by simp [GeventLock.RLock.acquire, h], ?_⟩
  obtain ⟨m, rfl⟩ : ∃ m, n = m + 1 := ⟨n - 1, by omega⟩
  have h1 : GeventLock.RLock.init.acquire me true none =
      some (true, { block := 0, owner := some me, count := 1 },
            [GeventLock.SemOp.acq true none]) := by
    simp [GeventLock.RLock.acquire, GeventLock.RLock.init, GeventLock.baseAcquire]
  have h2 : GeventLock.RLock.acquireN me (m + 1) GeventLock.RLock.init =
      GeventLock.RLock.acquireN me m { block := 0, owner := some me, count := 1 } := by
    rw [GeventLock.RLock.acquireN, h1]
  rw [h2, GeventLock.RLock.acquireN_owned]
  simp only [Option.some.injEq, GeventLock.RLock.mk.injEq, true_and]
  push_cast
  ring

/-- Witness for C4 at the concrete held state `⟨0, some 3, 1⟩`, `me = 3`,
`n = 2`. -/
theorem claim_C4_witness :
    ((⟨0, some 3, 1⟩ : GeventLock.RLock).owner = some 3 ∧ 1 ≤ 2) ∧
    (GeventLock.RLock.acquire ⟨0, some 3, 1⟩ 3 true none =
        some (true, ⟨0, some 3, 2⟩, []) ∧
      GeventLock.RLock.acquireN 3 2 GeventLock.RLock.init = some ⟨0, some 3, 2⟩) := by
  refine ⟨⟨rfl, by omega⟩, ?_⟩
  have h := claim_C4_reentrant_acquire ⟨0, some 3, 1⟩ 3 true none 2 rfl (by omega)
  simpa using h

/-- Claim C5 (confirmed): `release()` by a non-owner (including when nobody
holds the lock) raises the ownership violation and leaves `count`, `owner`
and the underlying semaphore untouched (empty trace); `release()` by the
owner decrements `count`, and exactly when the new count is `0` it clears
`owner` and releases the underlying semaphore. -/
theorem claim_C5_release_ownership (s : GeventLock.RLock) (me : Nat) :
    (¬ s.owner = some me →
      s.release me = (some GeventLock.LockError.ownershipViolation, s, [])) ∧
    (s.owner = some me →
      ((s.count - 1 = 0 →
          s.release me =
            (none, { block := s.block + 1, owner := none, count := 0 },
             [GeventLock.SemOp.rel])) ∧
       (¬ s.count - 1 = 0 →
          s.release me = (none, { s with count := s.count - 1 }, [])))) := by
  refine ⟨fun h => by simp [GeventLock.RLock.release, h], fun h => ⟨fun hc => ?_, fun hc => ?_⟩⟩
  · simp [GeventLock.RLock.release, h, hc]
  · simp [GeventLock.RLock.release, h, hc]

/-- Witness for C5: a non-owner release on `⟨1, some 2, 3⟩` by `me = 5`, and
an owner release on `⟨0, some 4, 1⟩` by `me = 4` that frees the lock. -/
theorem claim_C5_witness :
    (¬ (⟨1, some 2, 3⟩ : GeventLock.RLock).owner = some 5 ∧
      GeventLock.RLock.release ⟨1, some 2, 3⟩ 5 =
        (some GeventLock.LockError.ownershipViolation, ⟨1, some 2, 3⟩, [])) ∧
    ((⟨0, some 4, 1⟩ : GeventLock.RLock).owner = some 4 ∧ (1 : Int) - 1 = 0 ∧
      GeventLock.RLock.release ⟨0, some 4, 1⟩ 4 = (none, ⟨1, none, 0⟩, [GeventLock.SemOp.rel])) := by
  refine ⟨⟨by decide, (claim_C5_release_ownership ⟨1, some 2, 3⟩ 5).1 (by decide)⟩,
          rfl, by decide, ?_⟩
  have h := ((claim_C5_release_ownership ⟨0, some 4, 1⟩ 4).2 rfl).1 (by decide)
  simpa using h

/-- Claim C6 (confirmed): on a lock held by `me` with count `n ≥ 1`,
`_release_save` captures `(n, me)`, zeroes `count`, clears `owner` and
releases the underlying semaphore; `_acquire_restore` applied immediately
to the captured pair re-acquires the semaphore and reinstates exactly the
captured `count` and `owner` — the round trip reproduces the identical
observable state. -/
theorem claim_C6_save_restore_roundtrip (s : GeventLock.RLock) (me : Nat)
    (h : s.owner = some me) (_hc : 0 < s.count) :
    (s._release_save).1 = (s.count, some me) ∧
    (s._release_save).2 = { block := s.block + 1, owner := none, count := 0 } ∧
    GeventLock.RLock._acquire_restore (s._release_save).2 (s._release_save).1 = some s := by
  refine ⟨by simp [GeventLock.RLock._release_save, h], rfl, ?_⟩
  simp [GeventLock.RLock._release_save, GeventLock.RLock._acquire_restore,
        GeventLock.baseAcquire]

/-- Witness for C6 at the held state `⟨0, some 7, 2⟩`, `me = 7`. -/
theorem claim_C6_witness :
    ((⟨0, some 7, 2⟩ : GeventLock.RLock).owner = some 7 ∧
      0 < (⟨0, some 7, 2⟩ : GeventLock.RLock).count) ∧
    ((GeventLock.RLock._release_save ⟨0, some 7, 2⟩).1 = (2, some 7) ∧
     (GeventLock.RLock._release_save ⟨0, some 7, 2⟩).2 = ⟨1, none, 0⟩ ∧
     GeventLock.RLock._acquire_restore (GeventLock.RLock._release_save ⟨0, some 7, 2⟩).2
       (GeventLock.RLock._release_save ⟨0, some 7, 2⟩).1 = some ⟨0, some 7, 2⟩) := by
  refine ⟨⟨rfl, by decide⟩, ?_⟩
  have h := claim_C6_save_restore_roundtrip ⟨0, some 7, 2⟩ 7 rfl (by decide)
  simpa using h

/-- Claim C7 (confirmed): the invariant `count > 0 ⇔ owner.is_some()` (with
`count ≥ 0`) holds initially and is preserved by `acquire` (successful or
failed), `release` (owner or error case), `_release_save`, and
`_acquire_restore` of a previously captured held state (`0 < n`,
`owner` present). At most one task is recorded as owner at any time by
construction: `owner : Option Nat` stores at most one identity. -/
theorem claim_C7_invariant (s : GeventLock.RLock) (me : Nat) (blocking : Bool)
    (timeout : Option Int) (n : Int) (o : Option Nat)
    (hs : GeventLock.RLockInv s) (hn : 0 < n) (ho : o.isSome) :
    GeventLock.RLockInv GeventLock.RLock.init ∧
    (∀ r s2 ops, s.acquire me blocking timeout = some (r, s2, ops) → GeventLock.RLockInv s2) ∧
    (∀ e s2 ops, s.release me = (e, s2, ops) → GeventLock.RLockInv s2) ∧
    GeventLock.RLockInv (s._release_save).2 ∧
    (∀ s2, s._acquire_restore (n, o) = some s2 → GeventLock.RLockInv s2) := by
  obtain ⟨h1, h2⟩ := hs
  refine ⟨by decide, ?_, ?_, ?_, ?_⟩
  · intro r s2 ops hacq
    by_cases how : s.owner = some me
    · have hcount : 0 < s.count := h1.mpr (by simp [how])
      simp only [GeventLock.RLock.acquire, if_pos how, Option.some.injEq,
                 Prod.mk.injEq] at hacq
      obtain ⟨-, hs2, -⟩ := hacq
      subst hs2
      constructor
      · simp only [how, Option.isSome_some, iff_true]
        omega
      · simp only []
        omega
    · cases hb : GeventLock.baseAcquire s.block blocking timeout with
      | none => simp [GeventLock.RLock.acquire, how, hb] at hacq
      | some p =>
        obtain ⟨rc, b2⟩ := p
        cases rc with
        | true =>
          simp only [GeventLock.RLock.acquire, if_neg how, hb, reduceIte,
                     eq_self_iff_true, if_true, Option.some.injEq, Prod.mk.injEq] at hacq
          obtain ⟨-, hs2, -⟩ := hacq
          subst hs2
          exact ⟨by simp, by norm_num⟩
        | false =>
          simp only [GeventLock.RLock.acquire, if_neg how, hb, Bool.false_eq_true,
                     reduceIte, Option.some.injEq, Prod.mk.injEq] at hacq
          obtain ⟨-, hs2, -⟩ := hacq
          subst hs2
          exact ⟨h1, h2⟩
  · intro e s2 ops hrel
    by_cases how : s.owner = some me
    · have hcount : 0 < s.count := h1.mpr (by simp [how])
      by_cases hz : s.count - 1 = 0
      · simp only [GeventLock.RLock.release, if_pos how, if_pos hz, Prod.mk.injEq] at hrel
        obtain ⟨-, hs2, -⟩ := hrel
        subst hs2
        constructor
        · simp only [hz]
          decide
        · simp only [hz]
          decide
      · simp only [GeventLock.RLock.release, if_pos how, if_neg hz, Prod.mk.injEq] at hrel
        obtain ⟨-, hs2, -⟩ := hrel
        subst hs2
        constructor
        · simp only [how, Option.isSome_some, iff_true]
          omega
        · simp only []
          omega
    · simp only [GeventLock.RLock.release, if_neg how, Prod.mk.injEq] at hrel
      obtain ⟨-, hs2, -⟩ := hrel
      subst hs2
      exact ⟨h1, h2⟩
  · exact ⟨by simp [GeventLock.RLock._release_save], by simp [GeventLock.RLock._release_save]⟩
  · intro s2 hres
    by_cases hb : 0 < s.block
    · simp only [GeventLock.RLock._acquire_restore, GeventLock.baseAcquire, if_pos hb,
                 Option.some.injEq] at hres
      subst hres
      constructor
      · simp only [Option.isSome] at ho ⊢
        constructor
        · intro
          exact ho
        · intro
          omega
      · simp only []
        omega
    · simp [GeventLock.RLock._acquire_restore, GeventLock.baseAcquire, hb] at hres

/-- Witness for C7 at the fresh lock, `me = 0`, with the captured held pair
`(1, some 0)`. -/
theorem claim_C7_witness :
    (GeventLock.RLockInv GeventLock.RLock.init ∧ 0 < (1 : Int) ∧
      (some 0 : Option Nat).isSome) ∧
    (GeventLock.RLockInv GeventLock.RLock.init ∧
     (∀ r s2 ops, GeventLock.RLock.acquire GeventLock.RLock.init 0 true none =
        some (r, s2, ops) → GeventLock.RLockInv s2) ∧
     (∀ e s2 ops, GeventLock.RLock.release GeventLock.RLock.init 0 = (e, s2, ops) →
        GeventLock.RLockInv s2) ∧
     GeventLock.RLockInv (GeventLock.RLock._release_save GeventLock.RLock.init).2 ∧
     (∀ s2, GeventLock.RLock._acquire_restore GeventLock.RLock.init (1, some 0) = some s2 →
        GeventLock.RLockInv s2)) := by
  refine ⟨⟨by decide, by decide, by decide⟩, ?_⟩
  exact claim_C7_invariant GeventLock.RLock.init 0 true none 1 (some 0)
    (by decide) (by decide) (by decide)

/-- Claim C8 (confirmed): a non-owner `acquire` whose delegated semaphore
acquire fails (non-blocking failure or `timeout = 0` poll) returns the
failure indication rather than raising, and `owner`, `count` — and even
the semaphore counter, since a failed base acquire leaves it unchanged —
are exactly as before the call. -/
theorem claim_C8_failed_acquire_unchanged (s : GeventLock.RLock) (me : Nat)
    (blocking : Bool) (timeout : Option Int) (b2 : Nat)
    (h : ¬ s.owner = some me)
    (hf : GeventLock.baseAcquire s.block blocking timeout = some (false, b2)) :
    s.acquire me blocking timeout =
      some (false, { s with block := b2 }, [GeventLock.SemOp.acq blocking timeout]) ∧
    b2 = s.block := by
  have hb : b2 = s.block := by
    by_cases h1 : 0 < s.block
    · simp [GeventLock.baseAcquire, h1] at hf
    · by_cases h2 : blocking = false
      · simp [GeventLock.baseAcquire, h1, h2] at hf
        omega
      · by_cases h3 : timeout = some 0
        · simp [GeventLock.baseAcquire, h1, h2, h3] at hf
          omega
        · simp [GeventLock.baseAcquire, h1, h2, h3] at hf
  exact ⟨by simp [GeventLock.RLock.acquire, h, hf], hb⟩

/-- Witness for C8: `me = 2` polls (non-blocking) a lock held by task 1. -/
theorem claim_C8_witness :
    (¬ (⟨0, some 1, 1⟩ : GeventLock.RLock).owner = some 2 ∧
      GeventLock.baseAcquire 0 false none = some (false, 0)) ∧
    (GeventLock.RLock.acquire ⟨0, some 1, 1⟩ 2 false none =
        some (false, ⟨0, some 1, 1⟩, [GeventLock.SemOp.acq false none]) ∧
      (0 : Nat) = (⟨0, some 1, 1⟩ : GeventLock.RLock).block) := by
  refine ⟨⟨by decide, by decide⟩, ?_⟩
  have h := claim_C8_failed_acquire_unchanged ⟨0, some 1, 1⟩ 2 false none 0
    (by decide) (by decide)
  simpa using h

/-- Claim C9 (confirmed): every `DummySemaphore` operation returns success
immediately with no state change: `acquire` is `True` for all arguments,
`wait` is `1` for every timeout, `locked()` is `False`, `ready()` is
`True`, and `release()` does nothing. -/
theorem claim_C9_dummy_noop (s : GeventLock.DummySemaphore) (blocking : Bool)
    (timeout : Option Int) :
    s.acquire blocking timeout = (true, s) ∧ s.wait timeout = (1, s) ∧
    s.locked = false ∧ s.ready = true ∧ s.release = s :=
  ⟨rfl, rfl, rfl, rfl, rfl⟩

/-- Claim C10 (confirmed): in the single-task, no-suspension fragment, each
public `_AtomicSemaphore` operation returns exactly the value of the
corresponding base-semaphore operation on the same arguments and leaves
the semaphore counter exactly as the base operation alone would — the
gate wrapper is a behaviour-preserving refinement of the base semaphore
(the gate only brackets the delegated call and touches no counter or
waiter state). -/
theorem claim_C10_atomic_refines_base (s : GeventLock.AtomicSem) (me : Nat)
    (blocking : Bool) (timeout : Option Int) :
    (s.acquire me blocking timeout).map (fun p => (p.1, p.2.counter)) =
      GeventLock.baseAcquire s.counter blocking timeout ∧
    (s.wait me timeout).map (fun p => (p.1, p.2.counter)) =
      GeventLock.baseWait s.counter timeout ∧
    (s.release me).1 = (GeventLock.baseRelease s.counter).1 ∧
    (s.release me).2.1.counter = (GeventLock.baseRelease s.counter).2 := by
  refine ⟨?_, ?_, rfl, rfl⟩
  · cases hb : GeventLock.baseAcquire s.counter blocking timeout with
    | none => simp [GeventLock.AtomicSem.acquire, hb]
    | some p =>
      obtain ⟨r, c2⟩ := p
      simp [GeventLock.AtomicSem.acquire, hb]
  · cases hb : GeventLock.baseWait s.counter timeout with
    | none => simp [GeventLock.AtomicSem.wait, hb]
    | some p =>
      obtain ⟨r, c2⟩ := p
      simp [GeventLock.AtomicSem.wait, hb]

end GeventLock
